import Mathlib

/-!
Shallow embedding of `src/sdl-jstest.c` (sdl-jstest, a joystick test
program for SDL) and proofs about it.

Machine integers are modelled as `Int` with explicit two's-complement
wrapping (`wrap32`) at the points where C `int` arithmetic can overflow.
C's truncating signed division becomes `Int.tdiv`.
-/

namespace SdlJstest

/-- Two's-complement wrap-around of a mathematical integer into the
32-bit signed range `[-2^31, 2^31)`, modelling C `int` overflow. -/
def wrap32 (x : Int) : Int := (x + 2 ^ 31) % 2 ^ 32 - 2 ^ 31

/-- The fill position of the axis bar, from
`print_bar((axes[i] + 32767) * (len-1) / 65534, len)` in `main`
(sdl-jstest.c:276).  The sum and the product are C `int` expressions,
so each is wrapped to 32 bits; `/` is C truncating division. -/
def barPos (v len : Int) : Int :=
  (wrap32 (wrap32 (v + 32767) * wrap32 (len - 1))).tdiv 65534

/-- `LONG_MIN` on an LP64 platform. -/
def longMin : Int := -(2 ^ 63)

/-- `LONG_MAX` on an LP64 platform. -/
def longMax : Int := 2 ^ 63 - 1

/-- `INT_MIN`. -/
def intMin : Int := -(2 ^ 31)

/-- `INT_MAX`. -/
def intMax : Int := 2 ^ 31 - 1

/-- One step of `strtol`'s digit accumulation in base 10: consume a
maximal run of decimal digits, returning the accumulated magnitude (as
a mathematical natural), the number of digits consumed, and the rest. -/
def strtolDigits : List Char → Nat → Nat → Nat × Nat × List Char
  | [], acc, n => (acc, n, [])
  | c :: cs, acc, n =>
    if c.isDigit then
      strtolDigits cs (acc * 10 + (c.toNat - '0'.toNat)) (n + 1)
    else (acc, n, c :: cs)

/-- Result of `strtol(str, &endptr, 10)`: the returned `long`, whether
`errno` was set to `ERANGE`, and the number of characters consumed
(the offset of `endptr` from `str`). -/
structure StrtolResult where
  value : Int
  erange : Bool
  consumed : Nat
deriving DecidableEq, Repr

/-- `strtol(str, &endptr, 10)` on an LP64 platform: optional leading
whitespace, optional sign, maximal run of decimal digits.  If no digits
follow the (optional) sign, nothing is consumed and 0 is returned.  On
overflow of `long`, the result clamps to `LONG_MAX`/`LONG_MIN` and
`errno` is set to `ERANGE`. -/
def strtol10 (s : List Char) : StrtolResult :=
  let ws := s.takeWhile (fun c => c.isWhitespace)
  let rest := s.dropWhile (fun c => c.isWhitespace)
  let (neg, signLen, digitsPart) :=
    match rest with
    | '-' :: cs => (true, 1, cs)
    | '+' :: cs => (false, 1, cs)
    | cs => (false, 0, cs)
  let (mag, ndigits, _) := strtolDigits digitsPart 0 0
  if ndigits = 0 then
    { value := 0, erange := false, consumed := 0 }
  else
    let signedVal : Int := if neg then -(mag : Int) else (mag : Int)
    if signedVal < longMin then
      { value := longMin, erange := true, consumed := ws.length + signLen + ndigits }
    else if longMax < signedVal then
      { value := longMax, erange := true, consumed := ws.length + signLen + ndigits }
    else
      { value := signedVal, erange := false, consumed := ws.length + signLen + ndigits }

/-- `str2int` (sdl-jstest.c:45-69): parse with `strtol` base 10; fail
if `errno` was set, if there is garbage after the consumed prefix
(`*endptr != '\0'`), or if the value is outside `int` range.  `none`
models returning 0, `some v` models returning 1 having stored `v`. -/
def str2int (s : String) : Option Int :=
  let cs := s.toList
  let r := strtol10 cs
  if r.erange then none
  else if r.consumed ≠ cs.length then none
  else if r.value < intMin ∨ intMax < r.value then none
  else some r.value

/-! ### Hat diagram (sdl-jstest.c:288-317) -/

/-- `SDL_HAT_UP`. -/
def SDL_HAT_UP : Nat := 1

/-- `SDL_HAT_RIGHT`. -/
def SDL_HAT_RIGHT : Nat := 2

/-- `SDL_HAT_DOWN`. -/
def SDL_HAT_DOWN : Nat := 4

/-- `SDL_HAT_LEFT`. -/
def SDL_HAT_LEFT : Nat := 8

/-- The characters printed for one hat: the 3×3 cell diagram
(top-left .. bottom-right) and the four `up`/`down`/`left`/`right`
edge indicators. -/
structure HatDiagram where
  tl : Char
  tm : Char
  tr : Char
  ml : Char
  mm : Char
  mr : Char
  bl : Char
  bm : Char
  br : Char
  up : Char
  down : Char
  left : Char
  right : Char
deriving DecidableEq

/-- The hat diagram printed for bitmask `v`, each condition taken
verbatim from the `printw` argument list at sdl-jstest.c:292-316. -/
def hatDiagram (v : Nat) : HatDiagram where
  tl := if v &&& SDL_HAT_UP ≠ 0 ∧ v &&& SDL_HAT_LEFT ≠ 0 then 'O' else ' '
  tm := if v &&& SDL_HAT_UP ≠ 0 ∧ v &&& (SDL_HAT_LEFT ||| SDL_HAT_RIGHT) = 0 then 'O' else ' '
  tr := if v &&& SDL_HAT_UP ≠ 0 ∧ v &&& SDL_HAT_RIGHT ≠ 0 then 'O' else ' '
  ml := if v &&& (SDL_HAT_UP ||| SDL_HAT_DOWN) = 0 ∧ v &&& SDL_HAT_LEFT ≠ 0 then 'O' else ' '
  mm := if v &&& (SDL_HAT_UP ||| SDL_HAT_DOWN) = 0 ∧ v &&& (SDL_HAT_LEFT ||| SDL_HAT_RIGHT) = 0 then 'O' else ' '
  mr := if v &&& (SDL_HAT_UP ||| SDL_HAT_DOWN) = 0 ∧ v &&& SDL_HAT_RIGHT ≠ 0 then 'O' else ' '
  bl := if v &&& SDL_HAT_DOWN ≠ 0 ∧ v &&& SDL_HAT_LEFT ≠ 0 then 'O' else ' '
  bm := if v &&& SDL_HAT_DOWN ≠ 0 ∧ v &&& (SDL_HAT_LEFT ||| SDL_HAT_RIGHT) = 0 then 'O' else ' '
  br := if v &&& SDL_HAT_DOWN ≠ 0 ∧ v &&& SDL_HAT_RIGHT ≠ 0 then 'O' else ' '
  up := if v &&& SDL_HAT_UP ≠ 0 then '1' else '0'
  down := if v &&& SDL_HAT_DOWN ≠ 0 then '1' else '0'
  left := if v &&& SDL_HAT_LEFT ≠ 0 then '1' else '0'
  right := if v &&& SDL_HAT_RIGHT ≠ 0 then '1' else '0'

/-! ### Events, messages, and the test-mode loop state -/

/-- The SDL event variants handled by `main`'s `switch` statements.
`other t` stands for any event whose `type` falls into the `default`
case. -/
inductive SDLEvent where
  | joyAxisMotion (axis : Nat) (value : Int)
  | joyButtonDown (button : Nat) (state : Nat)
  | joyButtonUp (button : Nat) (state : Nat)
  | joyHatMotion (hat : Nat) (value : Nat)
  | joyBallMotion (ball : Nat) (xrel yrel : Int)
  | quitEvent
  | other (t : Nat)
deriving DecidableEq

/-- Which stream a message is written to. -/
inductive Fd where
  | stdout
  | stderr
deriving DecidableEq

/-- The distinct messages the program prints, one constructor per
`printf`/`fprintf` call site (curses screen content is modelled
separately by `RenderOut`). -/
inductive Msg where
  | helpText (prg : String)
  | versionText
  | noJoysticks
  | foundJoysticks (n : Nat)
  | joystickInfo (idx : Int)
  | unableToOpen (idx : Int)
  | badNumArg (s : String)
  | unknownArgs (prg : String)
  | tryHelp (prg : String)
  | unableToInitSDL
  | interruptNotice
  | unhandledEvent (t : Nat)
  | enteringLoop
  | eventLine (e : SDLEvent)
deriving DecidableEq

/-- A sequence of messages, each tagged with its stream. -/
abbrev Trace := List (Fd × Msg)

/-- What one test-mode redraw paints: the header plus one row per
axis, button, hat, and ball (sdl-jstest.c:262-332).  An axis row is
`(index, raw value, bar fill position)`; a button row is
`(index, raw state, bracket glyph)`; a hat row is
`(index, raw bitmask, diagram)`; a ball row is `(index, xrel, yrel)`. -/
structure RenderOut where
  name : String
  index : Int
  axisRows : List (Nat × Int × Int)
  buttonRows : List (Nat × Nat × String)
  hatRows : List (Nat × Nat × HatDiagram)
  ballRows : List (Nat × Int × Int)
deriving DecidableEq

/-- The axes section: for each `i`, the row prints `axes[i]` and a bar
of width `COLS - 20` filled at `barPos` (sdl-jstest.c:272-278).
`len` is the bar width `COLS - 20`. -/
def renderAxisRows (len : Int) (axes : List Int) : List (Nat × Int × Int) :=
  (List.range axes.length).map (fun i => (i, axes.getD i 0, barPos (axes.getD i 0) len))

/-- The state of the test-mode polling loop: the snapshot arrays
(`axes`, `buttons`, `hats`, `balls`), the `quit` and `something_new`
flags, and — for reasoning about output — the number of completed
redraws, the last painted screen, and the messages printed from inside
the loop. -/
structure LoopState where
  axes : List Int
  buttons : List Nat
  hats : List Nat
  balls : List (Int × Int)
  quit : Bool
  somethingNew : Bool
  renders : Nat
  lastRender : Option RenderOut
  msgs : Trace
deriving DecidableEq

/-- The loop state right after the four `calloc` calls
(sdl-jstest.c:213-220): all snapshot entries zero, `quit = 0`,
`something_new = TRUE`, nothing painted yet. -/
def initState (numAxes numButtons numHats numBalls : Nat) : LoopState where
  axes := List.replicate numAxes 0
  buttons := List.replicate numButtons 0
  hats := List.replicate numHats 0
  balls := List.replicate numBalls (0, 0)
  quit := false
  somethingNew := true
  renders := 0
  lastRender := none
  msgs := []

/-- One iteration of the inner `switch` (sdl-jstest.c:225-259):
`something_new = TRUE` is set for every popped event, then the event
is dispatched.  `none` models a failed `assert` (the process aborts);
the C stores `balls[2*b]`/`balls[2*b+1]`, modelled as one pair. -/
def applyEvent (ev : SDLEvent) (st0 : LoopState) : Option LoopState :=
  let st := { st0 with somethingNew := true }
  match ev with
  | .joyAxisMotion i v =>
    if i < st.axes.length then some { st with axes := st.axes.set i v } else none
  | .joyButtonDown b s =>
    if b < st.buttons.length then some { st with buttons := st.buttons.set b s } else none
  | .joyButtonUp b s =>
    if b < st.buttons.length then some { st with buttons := st.buttons.set b s } else none
  | .joyHatMotion h v =>
    if h < st.hats.length then some { st with hats := st.hats.set h v } else none
  | .joyBallMotion b dx dy =>
    if b < st.balls.length then some { st with balls := st.balls.set b (dx, dy) } else none
  | .quitEvent =>
    some { st with quit := true, msgs := st.msgs ++ [(Fd.stdout, Msg.interruptNotice)] }
  | .other t =>
    some { st with msgs := st.msgs ++ [(Fd.stderr, Msg.unhandledEvent t)] }

/-- The inner `while (SDL_PollEvent(&event))` drain
(sdl-jstest.c:225-260): every pending event of the batch is popped and
dispatched; note that the loop condition does not consult `quit`. -/
def drain (evs : List SDLEvent) (st : LoopState) : Option LoopState :=
  match evs with
  | [] => some st
  | e :: rest => (applyEvent e st).bind (drain rest)

/-- The full redraw performed when `something_new` holds
(sdl-jstest.c:262-332). -/
def render (name : String) (joyIdx cols : Int) (st : LoopState) : RenderOut where
  name := name
  index := joyIdx
  axisRows := renderAxisRows (cols - 20) st.axes
  buttonRows := (List.range st.buttons.length).map (fun i =>
    (i, st.buttons.getD i 0, if st.buttons.getD i 0 ≠ 0 then "[#]" else "[ ]"))
  hatRows := (List.range st.hats.length).map (fun i =>
    (i, st.hats.getD i 0, hatDiagram (st.hats.getD i 0)))
  ballRows := (List.range st.balls.length).map (fun i =>
    (i, (st.balls.getD i (0, 0)).1, (st.balls.getD i (0, 0)).2))

/-- One iteration of the outer `while(!quit)` loop body
(sdl-jstest.c:221-337): drain the pending batch, redraw if
`something_new` (then clear it), then check `getch()` for Ctrl-c
(key code 3). -/
def tick (name : String) (joyIdx cols : Int) (evs : List SDLEvent) (key : Option Nat)
    (st : LoopState) : Option LoopState :=
  (drain evs st).map (fun st1 =>
    let st2 :=
      if st1.somethingNew then
        { st1 with
          lastRender := some (render name joyIdx cols st1)
          renders := st1.renders + 1
          somethingNew := false }
      else st1
    if key = some 3 then { st2 with quit := true } else st2)

/-- The outer `while(!quit)` loop (sdl-jstest.c:221-338), driven by a
finite script of per-iteration inputs (the pending event batch and the
`getch()` result).  The `quit` flag is consulted exactly once per
iteration, before the body runs. -/
def runTicks (name : String) (joyIdx cols : Int)
    (script : List (List SDLEvent × Option Nat)) (st : LoopState) : Option LoopState :=
  match script with
  | [] => some st
  | (evs, key) :: rest =>
    if st.quit then some st
    else (tick name joyIdx cols evs key st).bind (runTicks name joyIdx cols rest)

/-! ### CLI dispatch (`main`, sdl-jstest.c:101-422) -/

/-- The outside world as `main` observes it: whether `SDL_Init`
succeeds, the device count, which device indices open successfully,
each device's name and capability counts, the terminal width `COLS`,
and the inputs fed to the test-mode and event-mode loops. -/
structure Env where
  sdlInitOk : Bool
  numJoysticks : Nat
  openOk : Int → Bool
  joyName : Int → String
  numAxes : Int → Nat
  numButtons : Int → Nat
  numHats : Int → Nat
  numBalls : Int → Nat
  cols : Int
  testScript : List (List SDLEvent × Option Nat)
  eventScript : List SDLEvent

/-- How the process ends: `exit`/`return` with a code, or an `assert`
abort. -/
inductive Outcome where
  | exited (code : Nat)
  | aborted
deriving DecidableEq

/-- The `--list` branch (sdl-jstest.c:138-163). -/
def listTrace (env : Env) : Trace :=
  if env.numJoysticks = 0 then [(Fd.stdout, Msg.noJoysticks)]
  else
    (Fd.stdout, Msg.foundJoysticks env.numJoysticks) ::
      (List.range env.numJoysticks).flatMap (fun i =>
        if env.openOk (i : Int) then [(Fd.stdout, Msg.joystickInfo (i : Int))]
        else [(Fd.stderr, Msg.unableToOpen (i : Int))])

/-- The `--event` mode loop `while(!quit && SDL_WaitEvent(&event))`
(sdl-jstest.c:371-408): one line per event, stopping after the first
`SDL_QUIT`. -/
def eventLoop : List SDLEvent → Trace
  | [] => []
  | SDLEvent.quitEvent :: _ => [(Fd.stdout, Msg.interruptNotice)]
  | SDLEvent.other t :: rest => (Fd.stderr, Msg.unhandledEvent t) :: eventLoop rest
  | e :: rest => (Fd.stdout, Msg.eventLine e) :: eventLoop rest

/-- `main` (sdl-jstest.c:101-422) as a function from the argument
vector and the environment to the printed trace and the process
outcome.  The branch structure mirrors the source: the `--help` test
is a plain `if` whose body does not exit, so control always falls
through to the `--version`/`--list`/`--test`/`--event`/else chain;
every path that reaches the bottom returns `EXIT_SUCCESS`.  On an
`assert` abort the (partial) curses output is not modelled. -/
def mainRun (args : List String) (env : Env) : Trace × Outcome :=
  let prg := args.getD 0 ""
  let argc := args.length
  let arg1 := args.getD 1 ""
  let arg2 := args.getD 2 ""
  if argc = 1 then
    ([(Fd.stdout, Msg.helpText prg)], Outcome.exited 1)
  else if env.sdlInitOk = false then
    ([(Fd.stderr, Msg.unableToInitSDL)], Outcome.exited 1)
  else
    let helpTrace : Trace :=
      if argc = 2 ∧ (arg1 = "--help" ∨ arg1 = "-h") then
        [(Fd.stdout, Msg.helpText prg)]
      else []
    if argc = 2 ∧ arg1 = "--version" then
      (helpTrace ++ [(Fd.stdout, Msg.versionText)], Outcome.exited 0)
    else if argc = 2 ∧ (arg1 = "--list" ∨ arg1 = "-l") then
      (helpTrace ++ listTrace env, Outcome.exited 0)
    else if argc = 3 ∧ (arg1 = "--test" ∨ arg1 = "-t") then
      match str2int arg2 with
      | none => (helpTrace ++ [(Fd.stderr, Msg.badNumArg arg2)], Outcome.exited 1)
      | some joyIdx =>
        if env.openOk joyIdx = false then
          (helpTrace ++ [(Fd.stderr, Msg.unableToOpen joyIdx)], Outcome.exited 0)
        else
          let st0 := initState (env.numAxes joyIdx) (env.numButtons joyIdx)
            (env.numHats joyIdx) (env.numBalls joyIdx)
          match runTicks (env.joyName joyIdx) joyIdx env.cols env.testScript st0 with
          | none => (helpTrace, Outcome.aborted)
          | some stF => (helpTrace ++ stF.msgs, Outcome.exited 0)
    else if argc = 3 ∧ (arg1 = "--event" ∨ arg1 = "-e") then
      match str2int arg2 with
      | none => (helpTrace ++ [(Fd.stderr, Msg.badNumArg arg2)], Outcome.exited 1)
      | some joyIdx =>
        if env.openOk joyIdx = false then
          (helpTrace ++ [(Fd.stderr, Msg.unableToOpen joyIdx), (Fd.stderr, Msg.unableToInitSDL)],
            Outcome.exited 0)
        else
          (helpTrace ++
              [(Fd.stdout, Msg.joystickInfo joyIdx), (Fd.stdout, Msg.enteringLoop)] ++
              eventLoop env.eventScript ++ [(Fd.stderr, Msg.unableToInitSDL)],
            Outcome.exited 0)
    else
      (helpTrace ++ [(Fd.stderr, Msg.unknownArgs prg), (Fd.stderr, Msg.tryHelp prg)],
        Outcome.exited 0)

/-- A minimal concrete environment: SDL initializes, no device opens. -/
def env0 : Env where
  sdlInitOk := true
  numJoysticks := 0
  openOk := fun _ => false
  joyName := fun _ => ""
  numAxes := fun _ => 0
  numButtons := fun _ => 0
  numHats := fun _ => 0
  numBalls := fun _ => 0
  cols := 80
  testScript := []
  eventScript := []

/-! ## Supporting lemmas -/

theorem wrap32_eq_self {x : Int} (h1 : -(2 ^ 31) ≤ x) (h2 : x < 2 ^ 31) : wrap32 x = x := by
  unfold wrap32
  rw [Int.emod_eq_of_lt (by omega) (by omega)]
  omega

theorem barPos_unwrapped {v w : Int} (hv1 : -32768 ≤ v) (hv2 : v ≤ 32767)
    (hw1 : 1 < w) (hw2 : w ≤ 32770) :
    barPos v w = ((v + 32767) * (w - 1)).tdiv 65534 := by
  have hs : wrap32 (v + 32767) = v + 32767 := wrap32_eq_self (by omega) (by omega)
  have hb : wrap32 (w - 1) = w - 1 := wrap32_eq_self (by omega) (by omega)
  have hlo : -(w - 1) ≤ (v + 32767) * (w - 1) := by nlinarith
  have hhi : (v + 32767) * (w - 1) ≤ 65534 * (w - 1) := by nlinarith
  have hp : wrap32 ((v + 32767) * (w - 1)) = (v + 32767) * (w - 1) :=
    wrap32_eq_self (by nlinarith) (by nlinarith)
  unfold barPos
  rw [hs, hb, hp]

/-- C1 (amended): for every axis value v in [-32768, 32767] and every bar
width w with 1 < w ≤ 32770, the fill position satisfies 0 ≤ pos < w, with
pos = 0 at v = -32768 and pos = w-1 at v = 32767.  (For w ≥ 32771 the C
`int` product overflows and the position can be negative.) -/
theorem bar_fill_position_bounds (v w : Int) (hv1 : -32768 ≤ v) (hv2 : v ≤ 32767)
    (hw1 : 1 < w) (hw2 : w ≤ 32770) :
    0 ≤ barPos v w ∧ barPos v w < w ∧
      (v = -32768 → barPos v w = 0) ∧ (v = 32767 → barPos v w = w - 1) := by
  rw [barPos_unwrapped hv1 hv2 hw1 hw2]
  by_cases hneg : v = -32768
  · subst hneg
    have hz : (((-32768 : Int) + 32767) * (w - 1)).tdiv 65534 = 0 := by
      rw [show ((-32768 : Int) + 32767) = -1 by norm_num, neg_one_mul, Int.neg_tdiv,
        Int.tdiv_eq_zero_of_lt (by omega) (by omega)]
      norm_num
    rw [hz]
    exact ⟨le_refl 0, by omega, fun _ => rfl, fun h => by omega⟩
  · have ha : 0 ≤ v + 32767 := by omega
    have hp : 0 ≤ (v + 32767) * (w - 1) := mul_nonneg ha (by omega)
    rw [Int.tdiv_eq_ediv hp (by norm_num)]
    have hnonneg : 0 ≤ (v + 32767) * (w - 1) / 65534 := Int.ediv_nonneg hp (by norm_num)
    have hle : (v + 32767) * (w - 1) ≤ 65534 * (w - 1) := by nlinarith
    have hub : (v + 32767) * (w - 1) / 65534 ≤ w - 1 := by
      have := Int.ediv_le_ediv (show (0:Int) < 65534 by norm_num) hle
      rwa [Int.mul_ediv_cancel_left _ (by norm_num)] at this
    refine ⟨hnonneg, by omega, fun h => absurd h hneg, fun h => ?_⟩
    subst h
    rw [show ((32767 : Int) + 32767) = 65534 by norm_num,
      Int.mul_ediv_cancel_left _ (by norm_num)]

/-- Witness: `bar_fill_position_bounds` at v = 0, w = 25. -/
theorem bar_fill_position_bounds_witness :
    0 ≤ barPos 0 25 ∧ barPos 0 25 < 25 ∧
      ((0 : Int) = -32768 → barPos 0 25 = 0) ∧ ((0 : Int) = 32767 → barPos 0 25 = 25 - 1) :=
  bar_fill_position_bounds 0 25 (by norm_num) (by norm_num) (by norm_num) (by norm_num)

/-- C1 counterexample: at axis value v = 32767 (in range) and bar width
w = 32771 (> 1), the C `int` product `(v + 32767) * (w - 1)` overflows and
the computed fill position is negative, violating both `0 ≤ pos` and the
claimed boundary `pos = w - 1`. -/
theorem bar_fill_position_counterexample : barPos 32767 32771 < 0 := by decide

/-- C5: hat bitmask 0 (centered) marks only the middle cell of the 3×3
diagram with 'O'; bitmask up|left marks only the top-left cell with 'O'
and sets the 'up' and 'left' edge indicators to '1', with all other
cells blank and the 'down' and 'right' indicators '0'. -/
theorem hat_diagram_centered_and_upleft :
    hatDiagram 0 =
      { tl := ' ', tm := ' ', tr := ' ', ml := ' ', mm := 'O', mr := ' ',
        bl := ' ', bm := ' ', br := ' ',
        up := '0', down := '0', left := '0', right := '0' } ∧
    hatDiagram (SDL_HAT_UP ||| SDL_HAT_LEFT) =
      { tl := 'O', tm := ' ', tr := ' ', ml := ' ', mm := ' ', mr := ' ',
        bl := ' ', bm := ' ', br := ' ',
        up := '1', down := '0', left := '1', right := '0' } := by
  decide

/-- C6: `str2int` rejects "abc", "99999999999999", and "12x"; it accepts
"0", "-1", and "42" with values 0, -1, 42; and acceptance requires a
base-10 integer within `int` range, witnessed at the range boundaries
INT_MAX = 2147483647 and INT_MIN = -2147483648. -/
theorem str2int_examples :
    str2int "abc" = none ∧ str2int "99999999999999" = none ∧ str2int "12x" = none ∧
    str2int "0" = some 0 ∧ str2int "-1" = some (-1) ∧ str2int "42" = some 42 ∧
    str2int "2147483647" = some 2147483647 ∧ str2int "2147483648" = none ∧
    str2int "-2147483648" = some (-2147483648) ∧ str2int "-2147483649" = none := by
  decide

theorem applyEvent_renders {ev : SDLEvent} {st st' : LoopState}
    (h : applyEvent ev st = some st') : st'.renders = st.renders := by
  cases ev <;> simp only [applyEvent] at h <;>
    (try split at h) <;>
    (try exact Option.noConfusion h) <;>
    (injection h with h; rw [← h])

theorem applyEvent_somethingNew {ev : SDLEvent} {st st' : LoopState}
    (h : applyEvent ev st = some st') : st'.somethingNew = true := by
  cases ev <;> simp only [applyEvent] at h <;>
    (try split at h) <;>
    (try exact Option.noConfusion h) <;>
    (injection h with h; rw [← h])

theorem drain_renders : ∀ (evs : List SDLEvent) (st st' : LoopState),
    drain evs st = some st' → st'.renders = st.renders
  | [], st, st', h => by
    simp only [drain, Option.some.injEq] at h
    rw [← h]
  | e :: rest, st, st', h => by
    simp only [drain] at h
    obtain ⟨st1, h1, h2⟩ := Option.bind_eq_some.mp h
    rw [drain_renders rest st1 st' h2, applyEvent_renders h1]

theorem renderAxisRows_getElem? (len : Int) (axes : List Int) (j : Nat) :
    (renderAxisRows len axes)[j]? =
      if j < axes.length then some (j, axes.getD j 0, barPos (axes.getD j 0) len)
      else none := by
  unfold renderAxisRows
  rw [List.getElem?_map]
  by_cases hj : j < axes.length
  · rw [List.getElem?_range hj, if_pos hj]
    rfl
  · rw [List.getElem?_eq_none (by rw [List.length_range]; omega), if_neg hj]
    rfl

/-- C7: for every event applied to the snapshot, the addressed component
index must be strictly below the corresponding capability count; an index
at or beyond the count makes the dispatch abort (`assert` failure, modelled
as `none`), never a silent write, while an in-bounds index succeeds. -/
theorem apply_event_bounds_checked (st : LoopState) :
    (∀ i v, st.axes.length ≤ i → applyEvent (SDLEvent.joyAxisMotion i v) st = none) ∧
    (∀ b s, st.buttons.length ≤ b → applyEvent (SDLEvent.joyButtonDown b s) st = none) ∧
    (∀ b s, st.buttons.length ≤ b → applyEvent (SDLEvent.joyButtonUp b s) st = none) ∧
    (∀ h v, st.hats.length ≤ h → applyEvent (SDLEvent.joyHatMotion h v) st = none) ∧
    (∀ b dx dy, st.balls.length ≤ b → applyEvent (SDLEvent.joyBallMotion b dx dy) st = none) ∧
    (∀ i v, i < st.axes.length → (applyEvent (SDLEvent.joyAxisMotion i v) st).isSome = true) ∧
    (∀ b s, b < st.buttons.length → (applyEvent (SDLEvent.joyButtonDown b s) st).isSome = true) ∧
    (∀ b s, b < st.buttons.length → (applyEvent (SDLEvent.joyButtonUp b s) st).isSome = true) ∧
    (∀ h v, h < st.hats.length → (applyEvent (SDLEvent.joyHatMotion h v) st).isSome = true) ∧
    (∀ b dx dy, b < st.balls.length →
      (applyEvent (SDLEvent.joyBallMotion b dx dy) st).isSome = true) := by
  refine ⟨?_, ?_, ?_, ?_, ?_, ?_, ?_, ?_, ?_, ?_⟩ <;>
    intros _ _ h <;> simp [applyEvent] <;> omega

/-- Witness: `apply_event_bounds_checked` on a device with one of each
component: axis index 2 aborts, axis index 0 succeeds. -/
theorem apply_event_bounds_checked_witness :
    applyEvent (SDLEvent.joyAxisMotion 2 7) (initState 1 1 1 1) = none ∧
    (applyEvent (SDLEvent.joyAxisMotion 0 7) (initState 1 1 1 1)).isSome = true :=
  ⟨(apply_event_bounds_checked (initState 1 1 1 1)).1 2 7 (by decide),
    (apply_event_bounds_checked (initState 1 1 1 1)).2.2.2.2.2.1 0 7 (by decide)⟩

/-- C8: applying an AxisMotion event with in-range axis index i and value
v sets axis i to exactly v, leaves every other axis and all buttons, hats,
and balls unchanged, and the subsequent render shows exactly v (with its
bar position) at axis row i and every other axis row as before. -/
theorem axis_motion_isolation (st : LoopState) (i : Nat) (v : Int)
    (name : String) (joyIdx cols : Int) (hi : i < st.axes.length) :
    ∃ st', applyEvent (SDLEvent.joyAxisMotion i v) st = some st' ∧
      st'.axes[i]? = some v ∧
      (∀ j, j ≠ i → st'.axes[j]? = st.axes[j]?) ∧
      st'.buttons = st.buttons ∧ st'.hats = st.hats ∧ st'.balls = st.balls ∧
      (render name joyIdx cols st').axisRows[i]? = some (i, v, barPos v (cols - 20)) ∧
      (∀ j, j ≠ i →
        (render name joyIdx cols st').axisRows[j]? =
          (render name joyIdx cols st).axisRows[j]?) := by
  refine ⟨{ st with somethingNew := true, axes := st.axes.set i v },
    ?_, ?_, ?_, rfl, rfl, rfl, ?_, ?_⟩
  · simp only [applyEvent]
    rw [if_pos hi]
  · exact List.getElem?_set_self hi
  · intro j hj
    exact List.getElem?_set_ne (fun h => hj h.symm)
  · show (renderAxisRows (cols - 20) (st.axes.set i v))[i]? = _
    rw [renderAxisRows_getElem?, List.length_set, if_pos hi,
      List.getD_eq_getElem?_getD, List.getElem?_set_self hi]
    rfl
  · intro j hj
    show (renderAxisRows (cols - 20) (st.axes.set i v))[j]? =
      (renderAxisRows (cols - 20) st.axes)[j]?
    rw [renderAxisRows_getElem?, renderAxisRows_getElem?, List.length_set,
      List.getD_eq_getElem?_getD, List.getD_eq_getElem?_getD,
      List.getElem?_set_ne (fun h => hj h.symm)]

/-- Witness: `axis_motion_isolation` on a two-axis device at axis 1,
value 1234. -/
theorem axis_motion_isolation_witness :
    ∃ st', applyEvent (SDLEvent.joyAxisMotion 1 1234) (initState 2 0 0 0) = some st' ∧
      st'.axes[1]? = some 1234 ∧
      (∀ j, j ≠ 1 → st'.axes[j]? = (initState 2 0 0 0).axes[j]?) ∧
      st'.buttons = (initState 2 0 0 0).buttons ∧
      st'.hats = (initState 2 0 0 0).hats ∧
      st'.balls = (initState 2 0 0 0).balls ∧
      (render "joy" 0 80 st').axisRows[1]? = some (1, 1234, barPos 1234 (80 - 20)) ∧
      (∀ j, j ≠ 1 →
        (render "joy" 0 80 st').axisRows[j]? =
          (render "joy" 0 80 (initState 2 0 0 0)).axisRows[j]?) :=
  axis_motion_isolation (initState 2 0 0 0) 1 1234 "joy" 0 80 (by decide)

/-- C3 counterexample: drain a batch where a Quit event precedes an axis
event.  The dispatcher does NOT stop at the Quit: the axis event that is
still pending in the same batch is applied (axis 0 becomes 5 instead of
staying 0), while `quit` is set — the C `break` only leaves the `switch`,
and the inner `while (SDL_PollEvent(...))` keeps draining. -/
theorem quit_drain_counterexample :
    ((drain [SDLEvent.quitEvent, SDLEvent.joyAxisMotion 0 5]
        (initState 1 0 0 0)).map LoopState.axes) = some [5] ∧
    ((drain [SDLEvent.quitEvent, SDLEvent.joyAxisMotion 0 5]
        (initState 1 0 0 0)).map LoopState.quit) = some true ∧
    ((drain [SDLEvent.quitEvent, SDLEvent.joyAxisMotion 0 5]
        (initState 1 0 0 0)).map LoopState.msgs) =
      some [(Fd.stdout, Msg.interruptNotice)] := by
  decide

/-- C3 (amended): a popped Quit event sets the quit flag and prints the
one-line notice, but the dispatcher continues iterating over the
remaining pending events of the same batch; the polling loop then
terminates at its next exit-condition check regardless of any further
scripted iterations. -/
theorem quit_notice_and_loop_termination (st : LoopState) (name : String) (joyIdx cols : Int)
    (script : List (List SDLEvent × Option Nat)) :
    applyEvent SDLEvent.quitEvent st =
      some { st with somethingNew := true, quit := true,
                     msgs := st.msgs ++ [(Fd.stdout, Msg.interruptNotice)] } ∧
    (st.quit = true → runTicks name joyIdx cols script st = some st) := by
  refine ⟨rfl, fun hq => ?_⟩
  cases script with
  | nil => rfl
  | cons head rest =>
    obtain ⟨evs, key⟩ := head
    simp [runTicks, hq]

/-- Witness: `quit_notice_and_loop_termination` on a quit-flagged state —
the loop consumes no further scripted iteration. -/
theorem quit_notice_and_loop_termination_witness :
    runTicks "joy" 0 80 [([SDLEvent.joyAxisMotion 0 7], none)]
        { initState 1 0 0 0 with quit := true } =
      some { initState 1 0 0 0 with quit := true } :=
  (quit_notice_and_loop_termination { initState 1 0 0 0 with quit := true }
    "joy" 0 80 [([SDLEvent.joyAxisMotion 0 7], none)]).2 rfl

/-- C4 counterexample: a tick whose drain pops exactly one unrecognized
event applies zero events to the snapshot (every snapshot field is
unchanged), yet the render step is NOT skipped: the redraw counter rises
from 0 to 1, because `something_new = TRUE` is set for every popped
event, not only for applied ones. -/
theorem render_gating_counterexample :
    ((tick "joy" 0 80 [SDLEvent.other 4096] none
        { initState 1 0 0 0 with somethingNew := false }).map LoopState.renders) = some 1 ∧
    ((tick "joy" 0 80 [SDLEvent.other 4096] none
        { initState 1 0 0 0 with somethingNew := false }).map LoopState.axes) = some [0] ∧
    ((tick "joy" 0 80 [SDLEvent.other 4096] none
        { initState 1 0 0 0 with somethingNew := false }).map LoopState.buttons) = some [] ∧
    ((tick "joy" 0 80 [SDLEvent.other 4096] none
        { initState 1 0 0 0 with somethingNew := false }).map LoopState.hats) = some [] ∧
    ((tick "joy" 0 80 [SDLEvent.other 4096] none
        { initState 1 0 0 0 with somethingNew := false }).map LoopState.balls) = some [] := by
  decide

/-- C4 (amended): on every tick where the drain popped zero events the
render step is skipped and the terminal output is unchanged; the dirty
flag is true initially, set true whenever any event is popped (applied
or not), and cleared immediately after a render completes. -/
theorem render_gating (a b h l : Nat) (name : String) (joyIdx cols : Int)
    (evs : List SDLEvent) (key : Option Nat) (ev : SDLEvent) (st st' : LoopState) :
    (initState a b h l).somethingNew = true ∧
    (st.somethingNew = false →
      (tick name joyIdx cols [] key st).map LoopState.renders = some st.renders ∧
      (tick name joyIdx cols [] key st).map LoopState.lastRender = some st.lastRender) ∧
    (applyEvent ev st = some st' → st'.somethingNew = true) ∧
    (tick name joyIdx cols evs key st = some st' → st.renders < st'.renders →
      st'.somethingNew = false) := by
  refine ⟨rfl, fun hn => ?_, fun hev => applyEvent_somethingNew hev, fun ht hr => ?_⟩
  · constructor <;> simp [tick, drain, hn] <;> split <;> rfl
  · simp only [tick] at ht
    obtain ⟨st1, h1, h2⟩ := Option.map_eq_some'.mp ht
    have hren := drain_renders evs st st1 h1
    cases hsn : st1.somethingNew with
    | true =>
      rw [← h2]
      simp only [hsn, if_true]
      split <;> rfl
    | false =>
      exfalso
      rw [← h2] at hr
      simp only [hsn, if_false] at hr
      split at hr <;> simp_all

/-- Witness: `render_gating` on a one-axis device with one axis event
pending and the flag clear. -/
theorem render_gating_witness :
    (tick "joy" 0 80 [] none { initState 1 0 0 0 with somethingNew := false }).map
        LoopState.renders =
      some ({ initState 1 0 0 0 with somethingNew := false } : LoopState).renders ∧
    (tick "joy" 0 80 [] none { initState 1 0 0 0 with somethingNew := false }).map
        LoopState.lastRender =
      some ({ initState 1 0 0 0 with somethingNew := false } : LoopState).lastRender :=
  (render_gating 1 0 0 0 "joy" 0 80 [] none SDLEvent.quitEvent
    { initState 1 0 0 0 with somethingNew := false }
    (initState 1 0 0 0)).2.1 rfl

/-- C2 counterexample: `--test 0` where device 0 fails to open prints the
open-failure message but the process exit code is 0 (`main` falls through
to `return EXIT_SUCCESS`), not 1 as claimed. -/
theorem open_failure_exit_counterexample :
    (Fd.stderr, Msg.unableToOpen 0) ∈ (mainRun ["sdl-jstest", "--test", "0"] env0).1 ∧
    (mainRun ["sdl-jstest", "--test", "0"] env0).2 ≠ Outcome.exited 1 := by
  decide

/-- C2 (amended): for every `--test N`/`--event N` invocation where N
parses as an integer but the device open fails, the program prints the
open-failure message and exits with code 0 (the open failure only skips
the loop; control falls through to `return EXIT_SUCCESS`); on
argument-parse failure the exit code is 1. -/
theorem open_failure_behaviour (p t s : String) (n : Int) (env : Env)
    (ht : t = "--test" ∨ t = "-t" ∨ t = "--event" ∨ t = "-e")
    (hsdl : env.sdlInitOk = true) :
    (str2int s = some n → env.openOk n = false →
      (Fd.stderr, Msg.unableToOpen n) ∈ (mainRun [p, t, s] env).1 ∧
      (mainRun [p, t, s] env).2 = Outcome.exited 0) ∧
    (str2int s = none →
      (Fd.stderr, Msg.badNumArg s) ∈ (mainRun [p, t, s] env).1 ∧
      (mainRun [p, t, s] env).2 = Outcome.exited 1) := by
  rcases ht with h | h | h | h <;> subst h <;>
    refine ⟨fun h1 h2 => ?_, fun h1 => ?_⟩ <;>
    first
      | simp [mainRun, hsdl, h1, h2]
      | simp [mainRun, hsdl, h1]

/-- Witness: `open_failure_behaviour` for `--test 0` in an environment
where no device opens. -/
theorem open_failure_behaviour_witness :
    (Fd.stderr, Msg.unableToOpen 0) ∈ (mainRun ["sdl-jstest", "--test", "0"] env0).1 ∧
    (mainRun ["sdl-jstest", "--test", "0"] env0).2 = Outcome.exited 0 :=
  (open_failure_behaviour "sdl-jstest" "--test" "0" 0 env0 (Or.inl rfl) rfl).1 rfl rfl

/-- C9 counterexample: with the unrecognized argument `--bogus` the
program writes the two usage-error lines to stderr but the exit code is
0 (`return EXIT_SUCCESS`), not non-zero as claimed. -/
theorem unknown_args_counterexample :
    mainRun ["sdl-jstest", "--bogus"] env0 =
      ([(Fd.stderr, Msg.unknownArgs "sdl-jstest"), (Fd.stderr, Msg.tryHelp "sdl-jstest")],
        Outcome.exited 0) := by
  decide

/-- C9 (amended): for every invocation with at least one argument whose
arguments match none of the recognized modes (help, version, list, test,
event), the program writes the usage error to the diagnostic stream and
exits with code 0. -/
theorem unknown_args_usage (args : List String) (env : Env)
    (hlen : 2 ≤ args.length) (hsdl : env.sdlInitOk = true)
    (hhelp : ¬(args.length = 2 ∧ (args.getD 1 "" = "--help" ∨ args.getD 1 "" = "-h")))
    (hver : ¬(args.length = 2 ∧ args.getD 1 "" = "--version"))
    (hlist : ¬(args.length = 2 ∧ (args.getD 1 "" = "--list" ∨ args.getD 1 "" = "-l")))
    (htest : ¬(args.length = 3 ∧ (args.getD 1 "" = "--test" ∨ args.getD 1 "" = "-t")))
    (hevent : ¬(args.length = 3 ∧ (args.getD 1 "" = "--event" ∨ args.getD 1 "" = "-e"))) :
    mainRun args env =
      ([(Fd.stderr, Msg.unknownArgs (args.getD 0 "")),
        (Fd.stderr, Msg.tryHelp (args.getD 0 ""))], Outcome.exited 0) := by
  simp only [mainRun]
  rw [if_neg (by omega), if_neg (by simp [hsdl]), if_neg hhelp, if_neg hver,
    if_neg hlist, if_neg htest, if_neg hevent]
  rfl

/-- Witness: `unknown_args_usage` at a four-argument invocation. -/
theorem unknown_args_usage_witness :
    mainRun ["sdl-jstest", "a", "b", "c"] env0 =
      ([(Fd.stderr, Msg.unknownArgs "sdl-jstest"), (Fd.stderr, Msg.tryHelp "sdl-jstest")],
        Outcome.exited 0) :=
  unknown_args_usage ["sdl-jstest", "a", "b", "c"] env0 (by decide) rfl
    (by decide) (by decide) (by decide) (by decide) (by decide)

/-- C10: invoking the program with exactly `--help` or `-h` prints the
help text and exits with code 0, but additionally writes the two
"unknown arguments" usage-error lines to stderr: the help branch is a
plain `if` that neither exits nor suppresses the following
mode-dispatch chain, whose final `else` then also runs. -/
theorem help_prints_help_and_usage_error (p : String) (env : Env)
    (hsdl : env.sdlInitOk = true) :
    mainRun [p, "--help"] env =
      ([(Fd.stdout, Msg.helpText p), (Fd.stderr, Msg.unknownArgs p),
        (Fd.stderr, Msg.tryHelp p)], Outcome.exited 0) ∧
    mainRun [p, "-h"] env =
      ([(Fd.stdout, Msg.helpText p), (Fd.stderr, Msg.unknownArgs p),
        (Fd.stderr, Msg.tryHelp p)], Outcome.exited 0) := by
  constructor <;> simp [mainRun, hsdl]

/-- Witness: `help_prints_help_and_usage_error` at program name
"sdl-jstest". -/
theorem help_prints_help_and_usage_error_witness :
    mainRun ["sdl-jstest", "--help"] env0 =
      ([(Fd.stdout, Msg.helpText "sdl-jstest"), (Fd.stderr, Msg.unknownArgs "sdl-jstest"),
        (Fd.stderr, Msg.tryHelp "sdl-jstest")], Outcome.exited 0) ∧
    mainRun ["sdl-jstest", "-h"] env0 =
      ([(Fd.stdout, Msg.helpText "sdl-jstest"), (Fd.stderr, Msg.unknownArgs "sdl-jstest"),
        (Fd.stderr, Msg.tryHelp "sdl-jstest")], Outcome.exited 0) :=
  help_prints_help_and_usage_error "sdl-jstest" env0 rfl

end SdlJstest
